import Mathlib

/-!
Verification of `generate_stats_sheets.py`, a generator of printable weekly
stats sheets (one landscape page per ISO week, a table of interaction types ×
durations against days × time blocks).

Dates are embedded as their proleptic Gregorian ordinals (`Nat`, day 1 =
0001-01-01, a Monday), exactly the representation CPython's `datetime.date`
uses internally; `weekday`, `ymd2ord` and `ord2ymd` below are translations of
the corresponding CPython `datetime` helpers, so that `datetime.date`
arithmetic (`-` of a `timedelta`, `.weekday()`, `.strftime`) becomes ordinal
arithmetic plus these conversions.
-/

-- ------------------ constants section (from the script) ------------------

def INTERACTION_TYPES : List String :=
  ["3d model", "3d print", "3d scan", "software", "sewing machines",
   "vinyl cutter", "podcasting", "virtual reality"]

def DURATIONS : List String := ["<5", "5-15", ">15"]

def TIME_BLOCKS : List String := ["8a-10a", "10a-12p", "12p-2p", "2p-4p", "4p-6p"]

def SCRIPT_VERSION : String := "0.2"

-- ------------------ CPython datetime calendar helpers ------------------

/-- Days in each month of a non-leap year (index 0 = January); CPython's
`_DAYS_IN_MONTH` without its `-1` sentinel. -/
def DAYS_IN_MONTH : List Nat := [31, 28, 31, 30, 31, 30, 31, 31, 30, 31, 30, 31]

/-- Cumulative days before each month in a non-leap year (index 0 = January);
CPython's `_DAYS_BEFORE_MONTH` without its `-1` sentinel. -/
def DAYS_BEFORE_MONTH : List Nat :=
  [0, 31, 59, 90, 120, 151, 181, 212, 243, 273, 304, 334]

/-- CPython `_is_leap`. -/
def isLeap (y : Nat) : Bool :=
  y % 4 == 0 && (y % 100 != 0 || y % 400 == 0)

/-- CPython `_days_in_month` (month given 1-based). -/
def days_in_month (y m : Nat) : Nat :=
  if m == 2 && isLeap y then 29 else DAYS_IN_MONTH.getD (m - 1) 0

/-- CPython `_days_before_year`. -/
def days_before_year (y : Nat) : Nat :=
  365 * (y - 1) + (y - 1) / 4 - (y - 1) / 100 + (y - 1) / 400

/-- CPython `_days_before_month` (month given 1-based). -/
def days_before_month (y m : Nat) : Nat :=
  DAYS_BEFORE_MONTH.getD (m - 1) 0 + (if 2 < m && isLeap y then 1 else 0)

/-- CPython `_ymd2ord`: proleptic Gregorian ordinal of (year, month, day). -/
def ymd2ord (y m d : Nat) : Nat :=
  days_before_year y + days_before_month y m + d

/-- CPython `_ord2ymd`: (year, month, day) of a proleptic Gregorian ordinal. -/
def ord2ymd (nn : Nat) : Nat × Nat × Nat :=
  let n := nn - 1
  let n400 := n / 146097
  let n := n % 146097
  let year := n400 * 400 + 1
  let n100 := n / 36524
  let n := n % 36524
  let n4 := n / 1461
  let n := n % 1461
  let n1 := n / 365
  let n := n % 365
  let year := year + n100 * 100 + n4 * 4 + n1
  if n1 == 4 || n100 == 4 then
    (year - 1, 12, 31)
  else
    let leap := n1 == 3 && (n4 != 24 || n100 == 3)
    let month := (n + 50) / 32
    let preceding := DAYS_BEFORE_MONTH.getD (month - 1) 0 +
      (if 2 < month && leap then 1 else 0)
    if n < preceding then
      let month' := month - 1
      let preceding' := preceding -
        (DAYS_IN_MONTH.getD (month' - 1) 0 + (if month' == 2 && leap then 1 else 0))
      (year, month', n - preceding' + 1)
    else
      (year, month, n - preceding + 1)

/-- CPython `date.weekday`: `(toordinal() + 6) % 7`, Monday = 0. -/
def weekday (d : Nat) : Nat := (d + 6) % 7

-- ------------------ helper / layout functions ------------------

/-- `iso_week_monday(any_date) = any_date - timedelta(days=any_date.weekday())`:
the Monday of the ISO week containing `any_date`, on ordinals. -/
def iso_week_monday (any_date : Nat) : Nat := any_date - weekday any_date

-- ------------------ strftime modelling ------------------

/-- Locale day names used by `strftime("%A")` in the C locale, indexed by
`weekday` (0 = Monday). -/
def DAY_NAMES : List String :=
  ["Monday", "Tuesday", "Wednesday", "Thursday", "Friday", "Saturday", "Sunday"]

/-- Left-pad a string with zeros to width `w` (as `strftime`'s `%Y`/`%m`/`%d`
zero padding). -/
def zfill (w : Nat) (s : String) : String :=
  String.mk (List.replicate (w - s.length) '0' ++ s.data)

/-- `strftime(DATE_FMT)` with `DATE_FMT = "%Y-%m-%d"` on a (year, month, day). -/
def fmtYMD (y m d : Nat) : String :=
  zfill 4 (toString y) ++ "-" ++ zfill 2 (toString m) ++ "-" ++ zfill 2 (toString d)

/-- `some_date.strftime("%Y-%m-%d")` on an ordinal. -/
def fmtDate (d : Nat) : String :=
  fmtYMD (ord2ymd d).1 (ord2ymd d).2.1 (ord2ymd d).2.2

/-- `day.strftime("%A %Y-%m-%d")`: the day-separator label of `build_week_page`. -/
def dayLabel (d : Nat) : String :=
  DAY_NAMES.getD (weekday d) "" ++ " " ++ fmtDate d

-- ------------------ build_week_page: the data grid ------------------

/-- Top header row: `["Time Block"]` then each interaction type followed by two
placeholder cells for the colspan effect. -/
def first_row : List String :=
  "Time Block" :: INTERACTION_TYPES.flatMap (fun itype => [itype, "", ""])

/-- Second header row: blank, then the duration labels under each interaction
type. -/
def second_row : List String :=
  "" :: INTERACTION_TYPES.flatMap (fun _ => DURATIONS)

/-- Day separator row: `[day_label] + [""] * (1 + len(INTERACTION_TYPES) *
len(DURATIONS) - 1)`. -/
def sep_row (day : Nat) : List String :=
  dayLabel day :: List.replicate (1 + INTERACTION_TYPES.length * DURATIONS.length - 1) ""

/-- One time-block body row: the block label then one blank tick-cell per
duration per interaction type. -/
def block_row (block_label : String) : List String :=
  block_label :: INTERACTION_TYPES.flatMap (fun _ => DURATIONS.map (fun _ => ""))

/-- Rows contributed by one day: its separator row, then one row per time
block. -/
def dayRows (monday day_offset : Nat) : List (List String) :=
  sep_row (monday + day_offset) :: TIME_BLOCKS.map block_row

/-- The `data` list of `build_week_page(monday)`: two header rows, then for
each day offset 0..6 a separator row and the time-block rows. -/
def build_week_page_data (monday : Nat) : List (List String) :=
  first_row :: second_row :: (List.range 7).flatMap (dayRows monday)

/-- One typographic millimetre in points (`reportlab.lib.units.mm` =
`72 / 25.4`), as an exact rational; only the length of `col_widths` matters to
the claims. -/
def mmQ : ℚ := 72 / (127 / 5)

/-- `col_widths = [time_block_w] + [duration_w] * (len(INTERACTION_TYPES) *
len(DURATIONS))` with `time_block_w = 15*mm`, `duration_w = 10*mm`. -/
def col_widths : List ℚ :=
  15 * mmQ :: List.replicate (INTERACTION_TYPES.length * DURATIONS.length) (10 * mmQ)

/-- The `SPAN` commands for the interaction-type headers: for each
`i < len(INTERACTION_TYPES)`, columns `1 + i*len(DURATIONS)` through
`start + len(DURATIONS) - 1` of row 0. -/
def interaction_spans : List (Nat × Nat) :=
  (List.range INTERACTION_TYPES.length).map (fun i =>
    (1 + i * DURATIONS.length, 1 + i * DURATIONS.length + DURATIONS.length - 1))

/-- The `SPAN` commands for the day separator rows: for each `i < 7`, columns
`0` through `len(col_widths) - 1` of row `2 + i*(1 + len(TIME_BLOCKS))`,
given as ((startCol, endCol), row). -/
def day_sep_spans : List ((Nat × Nat) × Nat) :=
  (List.range 7).map (fun i =>
    ((0, col_widths.length - 1), 2 + i * (1 + TIME_BLOCKS.length)))

-- ------------------ document assembly (main) ------------------

/-- A flowable appended to the story: one week table (identified by its Monday
ordinal) or an explicit `PageBreak()`. -/
inductive StoryElem : Type
  | weekTable (monday : Nat) : StoryElem
  | pageBreak : StoryElem
deriving DecidableEq, Repr

/-- Does the story element carry a week table? -/
def isWeekTable : StoryElem → Bool
  | .weekTable _ => true
  | .pageBreak => false

/-- Is the story element an explicit page break? -/
def isPageBreak : StoryElem → Bool
  | .weekTable _ => false
  | .pageBreak => true

/-- `week_starts = [first_monday + timedelta(weeks=i) for i in range(weeks)]`. -/
def week_starts_list (first_monday weeks : Nat) : List Nat :=
  (List.range weeks).map (fun i => first_monday + 7 * i)

/-- The story loop of `main`: for each week start append its table, and append
a `PageBreak()` after every table except the one at the last index. -/
def storyLoop : List Nat → List StoryElem
  | [] => []
  | [w] => [StoryElem.weekTable w]
  | w :: w' :: ws => StoryElem.weekTable w :: StoryElem.pageBreak :: storyLoop (w' :: ws)

/-- The full story assembled by `main` from a first Monday and a week count. -/
def buildStory (first_monday weeks : Nat) : List StoryElem :=
  storyLoop (week_starts_list first_monday weeks)

-- ------------------ --start parsing (strptime "%Y-%m-%d") ------------------

/-- Split a character list on a separator character (Python `str.split(sep)`
with a one-character separator). -/
def splitOnChar (c : Char) : List Char → List (List Char)
  | [] => [[]]
  | a :: rest =>
    match splitOnChar c rest with
    | f :: fs => if a = c then [] :: f :: fs else (a :: f) :: fs
    | [] => if a = c then [[], []] else [[a]]

/-- Decimal value of a digit string. -/
def digitsVal (l : List Char) : Nat :=
  l.foldl (fun a c => 10 * a + (c.toNat - 48)) 0

/-- Are all characters decimal digits? -/
def allDigits (l : List Char) : Bool := l.all Char.isDigit

/-- `datetime.strptime(s, "%Y-%m-%d").date()` as a partial function.

CPython's `_strptime` compiles `"%Y-%m-%d"` to the anchored regex
`(?P<Y>\d\d\d\d)-(?P<m>1[0-2]|0[1-9]|[1-9])-(?P<d>3[01]|[12]\d|0[1-9]|[1-9])`
and requires the match to consume the whole string; since the fields are all
digits and the separator is not, this language is exactly: three dash-separated
fields, the year exactly 4 digits, month and day 1-2 digits with values 1..12
and 1..31. The subsequent `datetime.date(y, m, d)` construction additionally
raises `ValueError` (caught by `main`) unless `1 ≤ y` and
`d ≤ days_in_month(y, m)`. -/
def parseStart (s : String) : Option (Nat × Nat × Nat) :=
  match splitOnChar '-' s.data with
  | [ys, ms, ds] =>
    if allDigits ys && ys.length == 4 &&
       allDigits ms && decide (1 ≤ ms.length) && ms.length ≤ 2 &&
         decide (1 ≤ digitsVal ms) && digitsVal ms ≤ 12 &&
       allDigits ds && decide (1 ≤ ds.length) && ds.length ≤ 2 &&
         decide (1 ≤ digitsVal ds) && digitsVal ds ≤ 31 &&
       decide (1 ≤ digitsVal ys) &&
       digitsVal ds ≤ days_in_month (digitsVal ys) (digitsVal ms)
    then some (digitsVal ys, digitsVal ms, digitsVal ds)
    else none
  | _ => none

/-- The observable outcome of `main` up to rendering: either the `SystemExit`
message (no `WeekDocTemplate` is constructed and no output file is touched),
or the constructed document state: the `week_starts` list passed to
`WeekDocTemplate` and the assembled `story`.

Arguments: `start` models `--start` (`none` = omitted), `weeks` models
`--weeks`, and `today` is `datetime.date.today()` as an ordinal (used when
`--start` is omitted or empty).

The guard in `main` is `if args.start:` — Python truthiness — so the empty
string, although present, is treated exactly like an omitted `--start`: the
program falls back to today's week and never reaches the parse. -/
def mainModel (start : Option String) (weeks : Nat) (today : Nat) :
    Except String (List Nat × List StoryElem) :=
  match start with
  | some s =>
    if s = "" then
      let first_monday := iso_week_monday today
      .ok (week_starts_list first_monday weeks, buildStory first_monday weeks)
    else
      match parseStart s with
      | none => .error ("Bad --start date format, expected YYYY-MM-DD: " ++ s)
      | some (y, m, d) =>
        let first_monday := iso_week_monday (ymd2ord y m d)
        .ok (week_starts_list first_monday weeks, buildStory first_monday weeks)
  | none =>
    let first_monday := iso_week_monday today
    .ok (week_starts_list first_monday weeks, buildStory first_monday weeks)

-- ------------------ page decoration (WeekDocTemplate.beforePage) ------------------

/-- Python list indexing `l[i]` with negative-index wraparound; `none` models
an `IndexError`. -/
def pyGet (l : List Nat) (i : Int) : Option Nat :=
  if i < 0 then
    if (l.length : Int) + i < 0 then none else l.get? ((l.length : Int) + i).toNat
  else l.get? i.toNat

/-- The week start resolved by `WeekDocTemplate.beforePage` for a 1-indexed
page number: `week_starts[page_num - 1]`, and on `IndexError` the fallback
`week_starts[-1]`. `none` models an uncaught `IndexError` (the page crashes
before any header is drawn). -/
def beforePageWeekStart (week_starts : List Nat) (page_num : Int) : Option Nat :=
  match pyGet week_starts (page_num - 1) with
  | some w => some w
  | none => pyGet week_starts (-1)

/-- The header text drawn for a page whose resolved week start is `w`. -/
def header_text (w : Nat) : String :=
  "Library – Weekly Stats Sheet – Week of " ++ fmtDate w

/-- The header label drawn by `beforePage`, when it does not crash. -/
def beforePageHeader (week_starts : List Nat) (page_num : Int) : Option String :=
  (beforePageWeekStart week_starts page_num).map header_text

/-- First cell (Python `data[j][0]`) of row `j` of the data grid, when both
exist. -/
def rowFirstCell (m j : Nat) : Option String :=
  ((build_week_page_data m).get? j).bind List.head?

-- ------------------ helper lemmas ------------------

theorem zfill_length (w : Nat) (s : String) :
    (zfill w s).length = (w - s.length) + s.length := by
  show (List.replicate (w - s.length) '0' ++ s.data).length = (w - s.length) + s.length
  rw [List.length_append, List.length_replicate]
  rfl

theorem le_zfill_length (w : Nat) (s : String) : w ≤ (zfill w s).length := by
  rw [zfill_length]
  omega

theorem ten_le_fmtYMD_length (y m d : Nat) : 10 ≤ (fmtYMD y m d).length := by
  unfold fmtYMD
  rw [String.length_append, String.length_append, String.length_append,
    String.length_append]
  have h1 := le_zfill_length 4 (toString y)
  have h2 := le_zfill_length 2 (toString m)
  have h3 := le_zfill_length 2 (toString d)
  have hd : ("-" : String).length = 1 := rfl
  omega

theorem twelve_le_dayLabel_length (d : Nat) : 12 ≤ (dayLabel d).length := by
  have h7 : weekday d < 7 := Nat.mod_lt _ (by norm_num)
  have hname : ∀ i, i < 7 → 6 ≤ (DAY_NAMES.getD i "").length := by decide
  have h1 := hname _ h7
  have hf : 10 ≤ (fmtDate d).length := ten_le_fmtYMD_length _ _ _
  unfold dayLabel
  rw [String.length_append, String.length_append]
  have hsp : (" " : String).length = 1 := rfl
  omega

theorem block_label_ne_dayLabel (b : String) (hb : b ∈ TIME_BLOCKS) (d : Nat) :
    b ≠ dayLabel d := by
  intro heq
  have h12 := twelve_le_dayLabel_length d
  rw [← heq] at h12
  fin_cases hb <;> revert h12 <;> decide

set_option maxHeartbeats 2000000 in
/-- Row `j` of the grid (for body rows `2 ≤ j < 44`) either is a day-separator
row, whose first cell is the day label for offset `i` with `j = 2 + 6i`, or is
a time-block row whose first cell is a time-block label and whose index is not
of that form. -/
theorem rowFirstCell_cases (m : Nat) : ∀ j, 2 ≤ j → j < 44 →
    (∃ i, i < 7 ∧ j = 2 + i * 6 ∧ rowFirstCell m j = some (dayLabel (m + i))) ∨
    (∃ b, rowFirstCell m j = some b ∧ b ∈ TIME_BLOCKS ∧ ∀ i, i < 7 → j ≠ 2 + i * 6) := by
  intro j h2 h44
  interval_cases j <;>
    first
      | exact Or.inl ⟨0, by omega, by omega, rfl⟩
      | exact Or.inl ⟨1, by omega, by omega, rfl⟩
      | exact Or.inl ⟨2, by omega, by omega, rfl⟩
      | exact Or.inl ⟨3, by omega, by omega, rfl⟩
      | exact Or.inl ⟨4, by omega, by omega, rfl⟩
      | exact Or.inl ⟨5, by omega, by omega, rfl⟩
      | exact Or.inl ⟨6, by omega, by omega, rfl⟩
      | exact Or.inr ⟨_, rfl, by decide, by intro i hi; omega⟩

/-- The story loop appends one table per week start and a page break after
every table but the last: it is `intersperse` of a page break. -/
theorem storyLoop_eq_intersperse (ws : List Nat) :
    storyLoop ws = List.intersperse StoryElem.pageBreak (ws.map StoryElem.weekTable) := by
  induction ws with
  | nil => rfl
  | cons w ws ih =>
    cases ws with
    | nil => rfl
    | cons w' ws' =>
      show StoryElem.weekTable w :: StoryElem.pageBreak :: storyLoop (w' :: ws') = _
      rw [ih]
      rfl

/-- The story holds one table per week start and one break per gap. -/
theorem storyLoop_counts (ws : List Nat) :
    (storyLoop ws).countP isWeekTable = ws.length ∧
      (storyLoop ws).countP isPageBreak = ws.length - 1 := by
  induction ws with
  | nil => exact ⟨rfl, rfl⟩
  | cons w ws ih =>
    cases ws with
    | nil => exact ⟨rfl, rfl⟩
    | cons w' ws' =>
      obtain ⟨h1, h2⟩ := ih
      refine ⟨?_, ?_⟩ <;>
        · show List.countP _ (StoryElem.weekTable w :: StoryElem.pageBreak :: storyLoop (w' :: ws')) = _
          simp [List.countP_cons, isWeekTable, isPageBreak, h1, h2]

/-- The last story element is the table of the last week start. -/
theorem storyLoop_getLast (ws : List Nat) :
    (storyLoop ws).getLast? = ws.getLast?.map StoryElem.weekTable := by
  induction ws with
  | nil => rfl
  | cons w ws ih =>
    cases ws with
    | nil => rfl
    | cons w' ws' =>
      obtain ⟨b, bs, hbs⟩ : ∃ b bs, storyLoop (w' :: ws') = b :: bs := by
        cases ws' <;> exact ⟨_, _, rfl⟩
      show (StoryElem.weekTable w :: StoryElem.pageBreak :: storyLoop (w' :: ws')).getLast? = _
      rw [hbs, List.getLast?_cons_cons, List.getLast?_cons_cons, ← hbs, ih,
        List.getLast?_cons_cons]

-- ------------------ the claims ------------------

/-- C1: for every valid date `d` (ordinal ≥ 1), `iso_week_monday d` is ≤ `d`,
at most 6 days before `d`, and falls on a Monday (weekday index 0). -/
theorem c1_iso_week_monday_is_monday_within_week (d : Nat) (h : 1 ≤ d) :
    iso_week_monday d ≤ d ∧ d - iso_week_monday d ≤ 6 ∧
      weekday (iso_week_monday d) = 0 := by
  unfold iso_week_monday weekday
  omega

/-- Witness for C1 at the concrete date 2024-06-12 (ordinal 739049). -/
theorem c1_iso_week_monday_is_monday_within_week_witness :
    1 ≤ 739049 ∧ (iso_week_monday 739049 ≤ 739049 ∧
      739049 - iso_week_monday 739049 ≤ 6 ∧ weekday (iso_week_monday 739049) = 0) :=
  ⟨by decide, c1_iso_week_monday_is_monday_within_week 739049 (by decide)⟩

/-- C8: the Monday resolver is idempotent on valid dates. -/
theorem c8_iso_week_monday_idempotent (d : Nat) (h : 1 ≤ d) :
    iso_week_monday (iso_week_monday d) = iso_week_monday d := by
  unfold iso_week_monday weekday
  omega

/-- Witness for C8 at the concrete date 2024-06-12 (ordinal 739049). -/
theorem c8_iso_week_monday_idempotent_witness :
    1 ≤ 739049 ∧ iso_week_monday (iso_week_monday 739049) = iso_week_monday 739049 :=
  ⟨by decide, c8_iso_week_monday_idempotent 739049 (by decide)⟩

/-- C2 counterexample: the claim quantifies over every present `--start` that
does not parse as a date, but `main` guards the parse with `if args.start:`
(Python truthiness), so for `--start ""` — present, and not a `YYYY-MM-DD`
date — the program does not abort: it falls back to today's week and
constructs the document (here today = ordinal 739049, whose week starts at
Monday 739047), so the output file at `--outfile` is written. -/
theorem c2_counterexample :
    parseStart "" = none ∧
      mainModel (some "") 1 739049 =
        .ok ([iso_week_monday 739049], [StoryElem.weekTable (iso_week_monday 739049)]) :=
  ⟨rfl, rfl⟩

/-- C2 (amended): whenever `--start` is a NONEMPTY (truthy) string that does
not parse as a `YYYY-MM-DD` date, `main` raises `SystemExit` with a
descriptive message (a non-zero exit) before the `WeekDocTemplate` document is
constructed, so no output file is created or overwritten: the model returns
the error without building any document state. -/
theorem c2_bad_start_aborts (s : String) (w t : Nat) (hne : s ≠ "")
    (h : parseStart s = none) :
    mainModel (some s) w t =
      .error ("Bad --start date format, expected YYYY-MM-DD: " ++ s) := by
  simp [mainModel, hne, h]

/-- Witness for the amended C2 at the concrete malformed input `"not-a-date"`. -/
theorem c2_bad_start_aborts_witness :
    ("not-a-date" : String) ≠ "" ∧ parseStart "not-a-date" = none ∧
      mainModel (some "not-a-date") 1 1 =
        .error ("Bad --start date format, expected YYYY-MM-DD: " ++ "not-a-date") :=
  ⟨by decide, by decide, c2_bad_start_aborts "not-a-date" 1 1 (by decide) (by decide)⟩

/-- C3: with a well-formed `--start` and `--weeks 0`, `main` accepts the input
(no validation error: the result is `ok`) and the document is empty: the
`week_starts` list and the story are both `[]`, so there is no explicit page
and no page break. -/
theorem c3_weeks_zero_empty_story (s : String) (p : Nat × Nat × Nat) (t : Nat)
    (h : parseStart s = some p) :
    mainModel (some s) 0 t = .ok ([], []) := by
  obtain ⟨y, m, d⟩ := p
  have hne : s ≠ "" := by
    rintro rfl
    rw [show parseStart "" = none from rfl] at h
    exact Option.noConfusion h
  simp [mainModel, hne, h, week_starts_list, buildStory, storyLoop]

/-- Witness for C3 at `--start 2024-06-12`. -/
theorem c3_weeks_zero_empty_story_witness :
    parseStart "2024-06-12" = some (2024, 6, 12) ∧
      mainModel (some "2024-06-12") 0 1 = .ok ([], []) :=
  ⟨by decide, c3_weeks_zero_empty_story "2024-06-12" (2024, 6, 12) 1 (by decide)⟩

/-- C4 counterexample: the claim quantifies over every list of week start
dates, but on the empty list the fallback `week_starts[-1]` itself raises an
uncaught `IndexError` (modelled by `none`): page 1 exceeds the zero known date
units, yet `beforePage` fails and renders no header label. -/
theorem c4_counterexample :
    beforePageWeekStart [] 1 = none ∧ beforePageHeader [] 1 = none ∧
      (([] : List Nat).length : Int) < 1 := by decide

/-- C4 (amended): for every NONEMPTY list of week starts and every 1-indexed
page number exceeding the number of known date units, `beforePage` does not
fail: it falls back to the last known date unit and still renders the header
label for that unit. -/
theorem c4_overflow_falls_back_to_last (ws : List Nat) (pn : Int)
    (hne : ws ≠ []) (hgt : (ws.length : Int) < pn) :
    ∃ w, ws.getLast? = some w ∧ beforePageWeekStart ws pn = some w ∧
      beforePageHeader ws pn = some (header_text w) := by
  have hlen : 1 ≤ ws.length := by
    cases ws with
    | nil => exact absurd rfl hne
    | cons a l => simp
  have h1 : pyGet ws (pn - 1) = none := by
    unfold pyGet
    rw [if_neg (by omega)]
    exact List.get?_eq_none.2 (by omega)
  have h2 : pyGet ws (-1) = some (ws.getLast hne) := by
    unfold pyGet
    rw [if_pos (by omega), if_neg (by omega)]
    have hidx : ((ws.length : Int) + -1).toNat = ws.length - 1 := by omega
    rw [hidx, List.get?_eq_getElem?, ← List.getLast?_eq_getElem?,
      List.getLast?_eq_getLast ws hne]
  refine ⟨ws.getLast hne, List.getLast?_eq_getLast ws hne, ?_, ?_⟩
  · unfold beforePageWeekStart
    rw [h1, h2]
  · unfold beforePageHeader beforePageWeekStart
    rw [h1, h2]
    rfl

/-- Witness for the amended C4 at `week_starts = [3]`, page 2. -/
theorem c4_overflow_falls_back_to_last_witness :
    ([3] : List Nat) ≠ [] ∧ ((([3] : List Nat).length : Int) < 2) ∧
      ∃ w, ([3] : List Nat).getLast? = some w ∧ beforePageWeekStart [3] 2 = some w ∧
        beforePageHeader [3] 2 = some (header_text w) :=
  ⟨by decide, by decide, c4_overflow_falls_back_to_last [3] 2 (by decide) (by decide)⟩

/-- C5: in the week-page table, the `i`-th interaction-type header span starts
at column `1 + i*len(DURATIONS)` and covers exactly `len(DURATIONS)` columns;
the spans cover each body column `1..len(INTERACTION_TYPES)*len(DURATIONS)`
exactly once (no gaps, no overlaps) and nothing outside; and every
day-separator span runs from column 0 to the last column
`len(col_widths) - 1`, i.e. the full row width. -/
theorem c5_spans :
    interaction_spans.map Prod.fst =
      (List.range INTERACTION_TYPES.length).map (fun i => 1 + i * DURATIONS.length)
    ∧ interaction_spans.map (fun p => p.2 + 1 - p.1) =
        List.replicate INTERACTION_TYPES.length DURATIONS.length
    ∧ (List.range (1 + INTERACTION_TYPES.length * DURATIONS.length)).map
        (fun c => interaction_spans.countP (fun p => p.1 ≤ c && c ≤ p.2)) =
      0 :: List.replicate (INTERACTION_TYPES.length * DURATIONS.length) 1
    ∧ interaction_spans.all
        (fun p => 1 ≤ p.1 && p.2 ≤ INTERACTION_TYPES.length * DURATIONS.length) = true
    ∧ day_sep_spans.map Prod.fst = List.replicate 7 (0, col_widths.length - 1)
    ∧ col_widths.length = 1 + INTERACTION_TYPES.length * DURATIONS.length := by
  decide

/-- C6: for `--weeks N` with `N ≥ 1`, the story is exactly `N` week tables for
consecutive ISO weeks in chronological order from the resolved Monday, with
exactly `N - 1` explicit page breaks interleaved between them (that is what
`intersperse` asserts) and no page break after the final table, whose entry is
the last story element. -/
theorem c6_story_structure (g N : Nat) (h : 1 ≤ N) :
    buildStory (iso_week_monday g) N =
      List.intersperse StoryElem.pageBreak
        ((List.range N).map (fun i => StoryElem.weekTable (iso_week_monday g + 7 * i)))
    ∧ (buildStory (iso_week_monday g) N).countP isWeekTable = N
    ∧ (buildStory (iso_week_monday g) N).countP isPageBreak = N - 1
    ∧ (buildStory (iso_week_monday g) N).getLast? =
        some (StoryElem.weekTable (iso_week_monday g + 7 * (N - 1))) := by
  set m := iso_week_monday g
  have hlen : (week_starts_list m N).length = N := by
    simp [week_starts_list]
  refine ⟨?_, ?_, ?_, ?_⟩
  · rw [buildStory, storyLoop_eq_intersperse]
    simp [week_starts_list, List.map_map]
    rfl
  · rw [buildStory, (storyLoop_counts _).1, hlen]
  · rw [buildStory, (storyLoop_counts _).2, hlen]
  · rw [buildStory, storyLoop_getLast]
    obtain ⟨n, rfl⟩ : ∃ n, N = n + 1 := ⟨N - 1, by omega⟩
    simp [week_starts_list, List.range_succ]

/-- Witness for C6 at the reference date 2024-06-12 (ordinal 739049), 2 weeks. -/
theorem c6_story_structure_witness :
    1 ≤ 2 ∧
      (buildStory (iso_week_monday 739049) 2 =
        List.intersperse StoryElem.pageBreak
          ((List.range 2).map (fun i => StoryElem.weekTable (iso_week_monday 739049 + 7 * i)))
      ∧ (buildStory (iso_week_monday 739049) 2).countP isWeekTable = 2
      ∧ (buildStory (iso_week_monday 739049) 2).countP isPageBreak = 2 - 1
      ∧ (buildStory (iso_week_monday 739049) 2).getLast? =
          some (StoryElem.weekTable (iso_week_monday 739049 + 7 * (2 - 1)))) :=
  ⟨by decide, c6_story_structure 739049 2 (by decide)⟩

/-- C7: for `--start 2024-06-12 --weeks 1`, the anchor resolves to Monday
2024-06-10, exactly one week table is produced (and no page break), and the
seven day-separator rows of that table read "Monday 2024-06-10" through
"Sunday 2024-06-16" in order. -/
theorem c7_concrete_scenario :
    iso_week_monday (ymd2ord 2024 6 12) = ymd2ord 2024 6 10
    ∧ mainModel (some "2024-06-12") 1 739049 =
        .ok ([ymd2ord 2024 6 10], [StoryElem.weekTable (ymd2ord 2024 6 10)])
    ∧ (List.range 7).map (fun i =>
        ((build_week_page_data (ymd2ord 2024 6 10)).get?
          (2 + i * (1 + TIME_BLOCKS.length))).bind List.head?) =
      [some "Monday 2024-06-10", some "Tuesday 2024-06-11", some "Wednesday 2024-06-12",
       some "Thursday 2024-06-13", some "Friday 2024-06-14", some "Saturday 2024-06-15",
       some "Sunday 2024-06-16"] :=
  ⟨by decide, rfl, by decide⟩

/-- C9: for every Monday ordinal, every one of the `2 + 7*(1+len(TIME_BLOCKS))`
rows of the data grid has exactly `1 + len(INTERACTION_TYPES)*len(DURATIONS)`
cells — the length of the column-width list — so the table is rectangular and
every column has a width. -/
theorem c9_grid_rectangular (m : Nat) :
    (build_week_page_data m).map List.length =
      List.replicate (2 + 7 * (1 + TIME_BLOCKS.length)) col_widths.length
    ∧ col_widths.length = 1 + INTERACTION_TYPES.length * DURATIONS.length := by
  constructor
  · simp [build_week_page_data, first_row, second_row, sep_row, block_row, dayRows,
      col_widths, INTERACTION_TYPES, DURATIONS, TIME_BLOCKS, List.range_succ,
      List.replicate]
  · rfl

set_option maxHeartbeats 2000000 in
/-- C10: the data grid has exactly `2 + 7*(1 + len(TIME_BLOCKS))` rows; for
each `i < 7` the row the styling loop addresses at index
`2 + i*(1 + len(TIME_BLOCKS))` is the day-separator row for day `monday + i`,
followed by the `len(TIME_BLOCKS)` time-block rows of blank tick-cells; and
among body rows, the styling-loop indices are exactly the rows whose first
cell is a day label. -/
theorem c10_day_separator_rows (m : Nat) :
    (build_week_page_data m).length = 2 + 7 * (1 + TIME_BLOCKS.length)
    ∧ (∀ i, i < 7 →
        (build_week_page_data m).get? (2 + i * (1 + TIME_BLOCKS.length)) =
          some (sep_row (m + i))
        ∧ ∀ k, (hk : k < TIME_BLOCKS.length) →
            (build_week_page_data m).get? (2 + i * (1 + TIME_BLOCKS.length) + 1 + k) =
              some (block_row (TIME_BLOCKS.get ⟨k, hk⟩)))
    ∧ (∀ b, block_row b = b :: List.replicate (INTERACTION_TYPES.length * DURATIONS.length) "")
    ∧ (∀ j, 2 ≤ j → j < 2 + 7 * (1 + TIME_BLOCKS.length) →
        ((∃ s, rowFirstCell m j = some s ∧ ∃ i, i < 7 ∧ s = dayLabel (m + i)) ↔
          (∃ i, i < 7 ∧ j = 2 + i * (1 + TIME_BLOCKS.length)))) := by
  refine ⟨rfl, ?_, fun b => rfl, ?_⟩
  · intro i hi
    interval_cases i <;>
      exact ⟨rfl, by
        intro k hk
        have hk5 : k < 5 := hk
        interval_cases k <;> rfl⟩
  · intro j h2 h44
    have h44' : j < 44 := h44
    simp only [show (1 : Nat) + TIME_BLOCKS.length = 6 from rfl]
    constructor
    · rintro ⟨s, hs, i, hi, rfl⟩
      rcases rowFirstCell_cases m j h2 h44' with ⟨i', hi', hj, _⟩ | ⟨b, hcell, hb, _⟩
      · exact ⟨i', hi', by omega⟩
      · rw [hs] at hcell
        exact absurd (Option.some.inj hcell).symm (block_label_ne_dayLabel b hb (m + i))
    · rintro ⟨i, hi, rfl⟩
      rcases rowFirstCell_cases m (2 + i * 6) (by omega) (by omega) with
        ⟨i', hi', hj, hcell⟩ | ⟨b, hcell, hb, hnot⟩
      · have hii : i' = i := by omega
        subst hii
        exact ⟨_, hcell, i', hi', rfl⟩
      · exact absurd rfl (hnot i hi)

/-- Witness for C10 at `monday = 1`: row count and the first separator row. -/
theorem c10_day_separator_rows_witness :
    (build_week_page_data 1).length = 2 + 7 * (1 + TIME_BLOCKS.length) ∧
      (build_week_page_data 1).get? 2 = some (sep_row 1) :=
  ⟨(c10_day_separator_rows 1).1, (((c10_day_separator_rows 1).2.1 0 (by decide)).1)⟩
